import Mathlib

/-!
Verification of the token-budget management layer of the multi-agent web
system (`src/utils/token_manager.py`).

Python strings are embedded as `List Char` (Python `len` counts code points
and slicing is by code point, matching `List` operations).  The external
`tiktoken` library is modelled by the `Tiktoken`/`Encoding` structures below:
`Option`-valued results model the exceptions that `try/except` blocks in the
source catch.  Real-valued arithmetic (`max_tokens * 0.6` etc.) is modelled
exactly over `Int`/`Nat` with `Int.tdiv` playing the role of Python's
truncating `int(...)` conversion; for every operand magnitude arising here the
IEEE double computation in the source agrees with the exact value.
-/

set_option autoImplicit false

namespace TokenManager

/-- A tokenizer encoding, as returned by `tiktoken.get_encoding`.  `encode`
and `decode` return `none` when the corresponding Python call would raise. -/
structure Encoding where
  encode : List Char → Option (List Nat)
  decode : List Nat → Option (List Char)

/-- The `tiktoken` module: `get_encoding` returns `none` when the lookup of
the encoding resource raises (e.g. the BPE data file is unavailable). -/
structure Tiktoken where
  get_encoding : String → Option Encoding

/-- Python `l[:k]` for an arbitrary (possibly negative) `Int` bound `k`. -/
def pySliceTo {α : Type} (l : List α) (k : Int) : List α :=
  if 0 ≤ k then l.take k.toNat else l.take (l.length - (-k).toNat)

/-- Python `l[i:]` for an arbitrary (possibly negative) `Int` index `i`.
Note `l[-0:]` is `l[0:]`, the whole list. -/
def pySliceFrom {α : Type} (l : List α) (i : Int) : List α :=
  if 0 ≤ i then l.drop i.toNat else l.drop (l.length - (-i).toNat)

/-- Python `text.split('\n')` on a `List Char` text: splitting `[]` gives
`[[]]`, matching `"".split('\n') == [""]`. -/
def splitOnNl : List Char → List (List Char)
  | [] => [[]]
  | c :: rest =>
    match splitOnNl rest with
    | [] => [[]]
    | l :: ls => if c = '\n' then [] :: l :: ls else (c :: l) :: ls

/-- The static model-name → encoding-name table of `count_tokens` and
`truncate_to_token_limit` (source lines 24-31 and 63-70). -/
def encoding_map : List (String × String) :=
  [("gpt-4o", "cl100k_base"),
   ("gpt-4.1", "cl100k_base"),
   ("gpt-5-chat", "cl100k_base"),
   ("o3", "cl100k_base"),
   ("o3-mini", "cl100k_base"),
   ("o1-mini", "cl100k_base")]

/-- `count_tokens(text, model)` (source lines 11-38): look up the encoding,
encode and count; on any failure fall back to `len(text) // 4`. -/
def count_tokens (tk : Tiktoken) (text : List Char) (model : String) : Nat :=
  match tk.get_encoding ((encoding_map.lookup model).getD "cl100k_base") with
  | none => text.length / 4
  | some encoding =>
    match encoding.encode text with
    | none => text.length / 4
    | some toks => toks.length

/-- The elision marker of the token path of `truncate_to_token_limit`
(source line 86). -/
def truncMarker (current_tokens : Nat) (max_tokens : Int) : List Char :=
  "\n\n[... Content truncated: ".data ++ (toString current_tokens).data
    ++ " tokens → ".data ++ (toString max_tokens).data ++ " tokens ...]\n\n".data

/-- The elision marker of the character fallback of `truncate_to_token_limit`
(source line 103). -/
def fallbackMarker (current_tokens : Nat) (max_tokens : Int) : List Char :=
  "\n\n[... Content truncated: ~".data ++ (toString current_tokens).data
    ++ " tokens → ~".data ++ (toString max_tokens).data ++ " tokens ...]\n\n".data

/-- The `try` block of `truncate_to_token_limit` (source lines 62-93):
head/tail token retention with the marker inserted at the character midpoint.
`none` models any exception inside the block (caught by the `except`).
`int(max_tokens * 0.6)` and `int(max_tokens * 0.4)` are the truncating
conversions `(max_tokens * 6).tdiv 10` and `(max_tokens * 4).tdiv 10`. -/
def truncate_token_path (tk : Tiktoken) (text : List Char) (max_tokens : Int)
    (model : String) (current_tokens : Nat) : Option (List Char) :=
  match tk.get_encoding ((encoding_map.lookup model).getD "cl100k_base") with
  | none => none
  | some encoding =>
    match encoding.encode text with
    | none => none
    | some tokens =>
      match encoding.decode
          (pySliceTo tokens ((max_tokens * 6).tdiv 10)
            ++ pySliceFrom tokens (-((max_tokens * 4).tdiv 10))) with
      | none => none
      | some truncated_text =>
        some (truncated_text.take (truncated_text.length / 2)
          ++ truncMarker current_tokens max_tokens
          ++ truncated_text.drop (truncated_text.length / 2))

/-- The `except` branch of `truncate_to_token_limit` (source lines 95-105):
character-proportional fallback.  `chars_per_token = len(text) / current_tokens`
raises `ZeroDivisionError` when `current_tokens = 0`, modelled by `none`;
otherwise `max_chars = int(max_tokens * chars_per_token)` is the exact
truncation `(max_tokens * len).tdiv current_tokens`. -/
def truncate_char_fallback (text : List Char) (max_tokens : Int)
    (current_tokens : Nat) : Option (List Char) :=
  if current_tokens = 0 then
    none
  else
    some (pySliceTo text (((max_tokens * text.length).tdiv current_tokens * 6).tdiv 10)
      ++ fallbackMarker current_tokens max_tokens
      ++ pySliceFrom text (-(((max_tokens * text.length).tdiv current_tokens * 4).tdiv 10)))

/-- `truncate_to_token_limit(text, max_tokens, model)` (source lines 41-105).
The result is `none` exactly when the Python call raises. -/
def truncate_to_token_limit (tk : Tiktoken) (text : List Char) (max_tokens : Int)
    (model : String) : Option (List Char) :=
  if (count_tokens tk text model : Int) ≤ max_tokens then
    some text
  else
    match truncate_token_path tk text max_tokens model (count_tokens tk text model) with
    | some r => some r
    | none => truncate_char_fallback text max_tokens (count_tokens tk text model)

/-- The marker line of `summarize_task_output` (source line 136); note it
contains two embedded newline characters of its own. -/
def summaryMarker (max_tokens : Int) : List Char :=
  "\n[... Middle section truncated to fit ".data ++ (toString max_tokens).data
    ++ " token limit ...]\n".data

/-- The line-level pass of `summarize_task_output` (source lines 126-140):
keep the first `int(total_lines * 0.4)` lines and the slice
`lines[-int(total_lines * 0.4):]`, with the marker line between, joined by
newlines. -/
def lineSummary (output : List Char) (max_tokens : Int) : List Char :=
  List.intercalate ['\n']
    ((splitOnNl output).take ((splitOnNl output).length * 4 / 10)
      ++ [summaryMarker max_tokens]
      ++ pySliceFrom (splitOnNl output) (-(((splitOnNl output).length * 4 / 10 : Nat) : Int)))

/-- `summarize_task_output(output, max_tokens, model)` (source lines 108-146):
return unchanged when within budget, otherwise the line-level pass, followed
by `truncate_to_token_limit` as a second pass when still over budget. -/
def summarize_task_output (tk : Tiktoken) (output : List Char) (max_tokens : Int)
    (model : String) : Option (List Char) :=
  if (count_tokens tk output model : Int) ≤ max_tokens then
    some output
  else if (count_tokens tk (lineSummary output max_tokens) model : Int) > max_tokens then
    truncate_to_token_limit tk (lineSummary output max_tokens) max_tokens model
  else
    some (lineSummary output max_tokens)

/-- The static model → total-token-limit table of `get_safe_token_limit`
(source lines 164-174). -/
def model_limits : List (String × Nat) :=
  [("gpt-4o", 8000),
   ("gpt-4.1", 8000),
   ("gpt-5-chat", 4000),
   ("o3", 4000),
   ("o3-mini", 4000),
   ("o1-mini", 4000),
   ("gpt-4o-mini", 8000),
   ("deepseek-r1", 4000),
   ("phi-4", 4000)]

/-- The dictionary returned by `get_safe_token_limit` (source lines 183-187). -/
structure SafeTokenLimit where
  total : Nat
  context : Nat
  response : Nat
deriving DecidableEq

/-- `get_safe_token_limit(model)` (source lines 149-187): `total` from the
table with default 4000, `context = int(total * 0.5)`,
`response = int(total * 0.3)` (exact: `total * 5 / 10`, `total * 3 / 10`). -/
def get_safe_token_limit (model : String) : SafeTokenLimit :=
  { total := (model_limits.lookup model).getD 4000
    context := (model_limits.lookup model).getD 4000 * 5 / 10
    response := (model_limits.lookup model).getD 4000 * 3 / 10 }

/-- `TaskOutputManager` (source lines 191-197): a model name, its limits and
the `task_outputs` dict, modelled as an insertion-ordered association list. -/
structure TaskOutputManager where
  model : String
  limits : SafeTokenLimit
  task_outputs : List (String × List Char)
deriving DecidableEq

/-- `TaskOutputManager.__init__` (source lines 194-197). -/
def TaskOutputManager.init (model : String) : TaskOutputManager :=
  { model := model, limits := get_safe_token_limit model, task_outputs := [] }

/-- Python dict assignment `d[k] = v` on an insertion-ordered dict: replace
the value in place when the key is present, otherwise append. -/
def pyDictSet {α : Type} : List (String × α) → String → α → List (String × α)
  | [], k, v => [(k, v)]
  | (k', v') :: rest, k, v =>
    if k' = k then (k, v) :: rest else (k', v') :: pyDictSet rest k v

/-- `TaskOutputManager.store_output` (source lines 199-207): summarize to the
`context` budget, store under `task_id`, return the truncated text. -/
def store_output (tk : Tiktoken) (m : TaskOutputManager) (task_id : String)
    (output : List Char) : Option (TaskOutputManager × List Char) :=
  match summarize_task_output tk output (m.limits.context : Int) m.model with
  | none => none
  | some truncated =>
    some ({ m with task_outputs := pyDictSet m.task_outputs task_id truncated }, truncated)

/-- `TaskOutputManager.get_output` (source lines 209-211):
`self.task_outputs.get(task_id, "")`. -/
def get_output (m : TaskOutputManager) (task_id : String) : List Char :=
  (m.task_outputs.lookup task_id).getD []

/-- `TaskOutputManager.get_combined_context` (source lines 213-223): join the
outputs of the ids present in the store and re-truncate to the `context`
budget. -/
def get_combined_context (tk : Tiktoken) (m : TaskOutputManager)
    (task_ids : List String) : Option (List Char) :=
  truncate_to_token_limit tk
    (List.intercalate "\n\n---\n\n".data
      ((task_ids.filter (fun tid => (m.task_outputs.lookup tid).isSome)).map
        (fun tid => get_output m tid)))
    (m.limits.context : Int) m.model

/-- A concrete total tokenizer for witnesses: one token per character.
`encode`/`decode` never fail, so the character fallback is unreachable. -/
def charEncoding : Encoding :=
  { encode := fun s => some (s.map Char.toNat)
    decode := fun ts => some (ts.map Char.ofNat) }

/-- A `tiktoken` environment in which every encoding name resolves to the
per-character encoding. -/
def charTk : Tiktoken := { get_encoding := fun _ => some charEncoding }

/-- A `tiktoken` environment in which the encoding resource is unavailable:
`get_encoding` always raises. -/
def noTk : Tiktoken := { get_encoding := fun _ => none }

end TokenManager

namespace TokenManager

/-! ### Helper lemmas -/

/-- Every model name resolves to the default encoding name: all values of
`encoding_map` are `"cl100k_base"`, and so is the `dict.get` default. -/
lemma lookup_encoding_default (model : String) :
    ((encoding_map.lookup model).getD "cl100k_base") = "cl100k_base" := by
  simp only [encoding_map, List.lookup]
  repeat' split
  all_goals rfl

/-- `count_tokens` on the successful encoding path returns the encoded length. -/
lemma count_tokens_of_encode (tk : Tiktoken) (text : List Char) (model : String)
    (enc : Encoding) (tokens : List Nat)
    (hget : tk.get_encoding "cl100k_base" = some enc)
    (henc : enc.encode text = some tokens) :
    count_tokens tk text model = tokens.length := by
  simp only [count_tokens, lookup_encoding_default, hget, henc]

/-- Under the per-character tokenizer the token count is the length. -/
lemma count_charTk (t : List Char) (model : String) :
    count_tokens charTk t model = t.length := by
  simp [count_tokens, charTk, charEncoding, lookup_encoding_default]

lemma tdiv_natCast (a b : Nat) : ((a : Int)).tdiv (b : Int) = ((a / b : Nat) : Int) := rfl

lemma pySliceTo_natCast {α : Type} (l : List α) (k : Nat) :
    pySliceTo l (k : Int) = l.take k := by
  simp [pySliceTo]

lemma pySliceFrom_neg_natCast {α : Type} (l : List α) (k : Nat) (hk : 0 < k) :
    pySliceFrom l (-(k : Int)) = l.drop (l.length - k) := by
  have h1 : ¬ ((0 : Int) ≤ -(k : Int)) := by omega
  simp [pySliceFrom, h1]

end TokenManager

namespace TokenManager

/-! ### Claim theorems -/

/-- C4: for every model identifier, `get_safe_token_limit` returns `total`
from the static limit table (default 4000 when unlisted),
`context = floor(total * 0.5)` and `response = floor(total * 0.3)`, and these
satisfy `context + response ≤ total`; a total of 4000 yields context 2000 and
response 1200. -/
theorem get_safe_token_limit_spec (model : String) :
    (get_safe_token_limit model).total = (model_limits.lookup model).getD 4000 ∧
    (get_safe_token_limit model).context = (get_safe_token_limit model).total * 5 / 10 ∧
    (get_safe_token_limit model).response = (get_safe_token_limit model).total * 3 / 10 ∧
    (get_safe_token_limit model).context + (get_safe_token_limit model).response
      ≤ (get_safe_token_limit model).total ∧
    ((get_safe_token_limit model).total = 4000 →
      (get_safe_token_limit model).context = 2000 ∧
      (get_safe_token_limit model).response = 1200) := by
  refine ⟨rfl, rfl, rfl, ?_, ?_⟩
  · show (model_limits.lookup model).getD 4000 * 5 / 10
        + (model_limits.lookup model).getD 4000 * 3 / 10
        ≤ (model_limits.lookup model).getD 4000
    generalize (model_limits.lookup model).getD 4000 = n
    omega
  · intro h
    have h' : (model_limits.lookup model).getD 4000 = 4000 := h
    constructor
    · show (model_limits.lookup model).getD 4000 * 5 / 10 = 2000
      rw [h']
    · show (model_limits.lookup model).getD 4000 * 3 / 10 = 1200
      rw [h']

/-- Witness for C4 at the unlisted model name `"mistral-large"`: the default
total 4000 gives context 2000 and response 1200. -/
theorem get_safe_token_limit_spec_witness :
    (get_safe_token_limit "mistral-large").context = 2000 ∧
    (get_safe_token_limit "mistral-large").response = 1200 :=
  (get_safe_token_limit_spec "mistral-large").2.2.2.2 (by decide)

/-- C6: when the text is already within budget, both
`truncate_to_token_limit` and `summarize_task_output` return it unchanged
(and raise nothing). -/
theorem truncate_noop_within_budget (tk : Tiktoken) (t : List Char) (n : Int)
    (model : String) (h : (count_tokens tk t model : Int) ≤ n) :
    truncate_to_token_limit tk t n model = some t ∧
    summarize_task_output tk t n model = some t := by
  constructor
  · simp [truncate_to_token_limit, h]
  · simp [summarize_task_output, h]

/-- Witness for C6: a two-character text under a budget of 10 tokens is
returned unchanged by both operations. -/
theorem truncate_noop_within_budget_witness :
    truncate_to_token_limit charTk "hi".data 10 "gpt-4o" = some "hi".data ∧
    summarize_task_output charTk "hi".data 10 "gpt-4o" = some "hi".data :=
  truncate_noop_within_budget charTk "hi".data 10 "gpt-4o" (by decide)

/-- C7 (failing input): with the tokenizer resource unavailable, empty text
and `max_tokens = -1`, `count_tokens` gives `0 // 4 = 0 > -1`, the `try`
block fails, and the character fallback computes
`chars_per_token = len(text) / current_tokens` with `current_tokens = 0`:
the Python code raises `ZeroDivisionError` (modelled by `none`), so
`truncate_to_token_limit` is not exception-free. -/
theorem truncate_fallback_division_raises :
    truncate_to_token_limit noTk [] (-1) "gpt-4o" = none := by decide

/-- C8: `count_tokens` treats every model identifier through the
many-to-one encoding table (all map to the default `"cl100k_base"`, so any
unrecognized model behaves like `"gpt-4o"`); when the encoding lookup or the
encoding itself fails it returns `len(text) // 4`; and on empty text it
returns 0 both on the encoding path (whenever the encoding sends `""` to the
empty token list, as BPE encoders do) and on the fallback path. -/
theorem count_tokens_spec (tk : Tiktoken) (model : String) (text : List Char) :
    count_tokens tk text model = count_tokens tk text "gpt-4o" ∧
    (tk.get_encoding "cl100k_base" = none →
      count_tokens tk text model = text.length / 4) ∧
    (∀ enc, tk.get_encoding "cl100k_base" = some enc → enc.encode text = none →
      count_tokens tk text model = text.length / 4) ∧
    (∀ enc, tk.get_encoding "cl100k_base" = some enc → enc.encode [] = some [] →
      count_tokens tk [] model = 0) ∧
    (tk.get_encoding "cl100k_base" = none → count_tokens tk [] model = 0) := by
  refine ⟨?_, ?_, ?_, ?_, ?_⟩
  · simp only [count_tokens, lookup_encoding_default]
  · intro h
    simp only [count_tokens, lookup_encoding_default, h]
  · intro enc hget henc
    simp only [count_tokens, lookup_encoding_default, hget, henc]
  · intro enc hget henc
    simp only [count_tokens, lookup_encoding_default, hget, henc, List.length_nil]
  · intro h
    simp only [count_tokens, lookup_encoding_default, h, List.length_nil]

/-- Witness for C8: with the encoding resource unavailable and an
unrecognized model, `count_tokens` falls back to `len // 4`, and empty text
counts as 0 on both the fallback path and the per-character encoding path. -/
theorem count_tokens_spec_witness :
    count_tokens noTk "abcdefgh".data "mystery-model" = "abcdefgh".data.length / 4 ∧
    count_tokens noTk [] "mystery-model" = 0 ∧
    count_tokens charTk [] "mystery-model" = 0 :=
  ⟨(count_tokens_spec noTk "mystery-model" "abcdefgh".data).2.1 rfl,
   (count_tokens_spec noTk "mystery-model" []).2.2.2.2 rfl,
   (count_tokens_spec charTk "mystery-model" []).2.2.2.1 charEncoding rfl rfl⟩

end TokenManager

namespace TokenManager

/-- Looking up the key just assigned by `pyDictSet` yields the new value,
whether or not the key was already present. -/
lemma lookup_pyDictSet {α : Type} (d : List (String × α)) (k : String) (v : α) :
    (pyDictSet d k v).lookup k = some v := by
  induction d with
  | nil => simp [pyDictSet, List.lookup]
  | cons p rest ih =>
    obtain ⟨k', v'⟩ := p
    by_cases hk : k' = k
    · subst hk
      simp [pyDictSet, List.lookup]
    · have hk2 : ¬ (k = k') := fun h => hk h.symm
      have hb : (k == k') = false := beq_eq_false_iff_ne.mpr hk2
      simp [pyDictSet, hk, List.lookup, hb, ih]

/-- C9: an absent task id yields the empty string from `get_output`, and
`get_combined_context` silently skips absent ids: deleting an absent id from
the queried id list does not change the result. -/
theorem absent_ids_skipped (tk : Tiktoken) (m : TaskOutputManager) (tid : String)
    (h : m.task_outputs.lookup tid = none) :
    get_output m tid = [] ∧
    ∀ ids1 ids2 : List String,
      get_combined_context tk m (ids1 ++ tid :: ids2)
        = get_combined_context tk m (ids1 ++ ids2) := by
  constructor
  · simp [get_output, h]
  · intro ids1 ids2
    simp [get_combined_context, List.filter_append, List.filter_cons, h]

/-- Witness for C9: with only `"a"` stored,
`get_combined_context ["a", "missing"] = get_combined_context ["a"]` and
`get_output "missing" = ""`. -/
theorem absent_ids_skipped_witness :
    get_output { model := "gpt-4o", limits := get_safe_token_limit "gpt-4o",
                 task_outputs := [("a", "hello".data)] } "missing" = [] ∧
    get_combined_context charTk
        { model := "gpt-4o", limits := get_safe_token_limit "gpt-4o",
          task_outputs := [("a", "hello".data)] } ["a", "missing"]
      = get_combined_context charTk
          { model := "gpt-4o", limits := get_safe_token_limit "gpt-4o",
            task_outputs := [("a", "hello".data)] } ["a"] :=
  ⟨(absent_ids_skipped charTk
      { model := "gpt-4o", limits := get_safe_token_limit "gpt-4o",
        task_outputs := [("a", "hello".data)] } "missing" (by decide)).1,
   (absent_ids_skipped charTk
      { model := "gpt-4o", limits := get_safe_token_limit "gpt-4o",
        task_outputs := [("a", "hello".data)] } "missing" (by decide)).2 ["a"] []⟩

/-- C10: whenever `store_output` returns, the value it returns is the
summarized text, the store maps the task id to that value (overwriting any
prior entry), and an immediately following `get_output` returns exactly it. -/
theorem store_output_roundtrip (tk : Tiktoken) (m : TaskOutputManager)
    (task_id : String) (output : List Char) (m2 : TaskOutputManager) (t : List Char)
    (h : store_output tk m task_id output = some (m2, t)) :
    get_output m2 task_id = t ∧
    summarize_task_output tk output (m.limits.context : Int) m.model = some t ∧
    m2.task_outputs = pyDictSet m.task_outputs task_id t := by
  unfold store_output at h
  cases hs : summarize_task_output tk output (m.limits.context : Int) m.model with
  | none => rw [hs] at h; cases h
  | some tr =>
    rw [hs] at h
    simp only [Option.some.injEq, Prod.mk.injEq] at h
    obtain ⟨hm2, ht⟩ := h
    subst ht
    refine ⟨?_, rfl, ?_⟩
    · rw [← hm2]
      simp [get_output, lookup_pyDictSet]
    · rw [← hm2]

/-- Witness for C10: storing `"hi"` under `"t1"` in a fresh manager stores
and returns `"hi"` itself (it is within the 4000-token context budget), and
`get_output "t1"` reads it back. -/
theorem store_output_roundtrip_witness :
    get_output { model := "gpt-4o",
                 limits := { total := 8000, context := 4000, response := 2400 },
                 task_outputs := [("t1", "hi".data)] } "t1" = "hi".data ∧
    summarize_task_output charTk "hi".data
        ((TaskOutputManager.init "gpt-4o").limits.context : Int)
        (TaskOutputManager.init "gpt-4o").model = some "hi".data ∧
    ({ model := "gpt-4o",
       limits := { total := 8000, context := 4000, response := 2400 },
       task_outputs := [("t1", "hi".data)] } : TaskOutputManager).task_outputs
      = pyDictSet (TaskOutputManager.init "gpt-4o").task_outputs "t1" "hi".data :=
  store_output_roundtrip charTk (TaskOutputManager.init "gpt-4o") "t1" "hi".data
    { model := "gpt-4o",
      limits := { total := 8000, context := 4000, response := 2400 },
      task_outputs := [("t1", "hi".data)] } "hi".data (by decide)

end TokenManager

namespace TokenManager

/-- C2 counterexample: with the per-character tokenizer, `"abcd"` (4 tokens)
and `max_tokens = 0`, the head slice `tokens[:0]` is empty but the tail
slice `tokens[-0:]` is the whole sequence, so the result retains the entire
text around the marker instead of consisting only of the marker. -/
theorem truncate_zero_budget_counterexample :
    truncate_to_token_limit charTk "abcd".data 0 "gpt-4o"
      = some ("ab".data ++ truncMarker 4 0 ++ "cd".data) ∧
    "ab".data ++ truncMarker 4 0 ++ "cd".data ≠ truncMarker 4 0 := by decide

/-- C2 (amended): for `max_tokens = 0` and a non-empty token sequence, the
call does not raise, but it retains the whole decoded token sequence (the
tail slice `tokens[-0:]` is everything) with the marker inserted at its
character midpoint — not "nothing but the marker". -/
theorem truncate_zero_budget_full_retention (tk : Tiktoken) (text : List Char)
    (model : String) (enc : Encoding) (tokens : List Nat) (d : List Char)
    (hget : tk.get_encoding "cl100k_base" = some enc)
    (henc : enc.encode text = some tokens)
    (hne : tokens ≠ [])
    (hdec : enc.decode tokens = some d) :
    truncate_to_token_limit tk text 0 model
      = some (d.take (d.length / 2) ++ truncMarker tokens.length 0
          ++ d.drop (d.length / 2)) := by
  have hcount := count_tokens_of_encode tk text model enc tokens hget henc
  have hpos : 0 < tokens.length := List.length_pos.mpr hne
  have hover : ¬ ((count_tokens tk text model : Int) ≤ (0 : Int)) := by
    rw [hcount]
    omega
  unfold truncate_to_token_limit
  rw [if_neg hover]
  have h1 : pySliceTo tokens (((0 : Int) * 6).tdiv 10) = [] := by
    norm_num [pySliceTo]
  have h2 : pySliceFrom tokens (-(((0 : Int) * 4).tdiv 10)) = tokens := by
    norm_num [pySliceFrom]
  have hpath : truncate_token_path tk text 0 model (count_tokens tk text model)
      = some (d.take (d.length / 2)
          ++ truncMarker (count_tokens tk text model) 0
          ++ d.drop (d.length / 2)) := by
    simp only [truncate_token_path, lookup_encoding_default, hget, henc, h1, h2,
      List.nil_append, hdec]
  rw [hpath, hcount]

/-- Witness for the amended C2 at `"wxyz"`, budget 0: the full text comes
back around the marker. -/
theorem truncate_zero_budget_full_retention_witness :
    truncate_to_token_limit charTk "wxyz".data 0 "o3"
      = some ("wxyz".data.take ("wxyz".data.length / 2) ++ truncMarker 4 0
          ++ "wxyz".data.drop ("wxyz".data.length / 2)) :=
  truncate_zero_budget_full_retention charTk "wxyz".data "o3" charEncoding
    ("wxyz".data.map Char.toNat) "wxyz".data rfl rfl (by decide) (by decide)

end TokenManager

namespace TokenManager

/-- C3 counterexample: per-character tokenizer, `"abcdef"` (6 tokens),
`max_tokens = 2 ≥ 0`.  Here `floor(2 * 0.4) = 0`, so `tokens[-0:]` is the
whole sequence: the code keeps the first token plus all six tokens
(`"aabcdef"`), not "the first 1 and the last 0 tokens" (`"a"`) as the claim
states. -/
theorem truncate_small_budget_counterexample :
    truncate_to_token_limit charTk "abcdef".data 2 "gpt-4o"
      = some ("aab".data ++ truncMarker 6 2 ++ "cdef".data) ∧
    "aab".data ++ truncMarker 6 2 ++ "cdef".data
      ≠ truncMarker 6 2 ++ "a".data := by decide

/-- C3 (amended): for `max_tokens ≥ 3` (so that `floor(max_tokens * 0.4) ≥ 1`)
and a token count over budget, the non-fallback path keeps exactly the first
`floor(max_tokens * 0.6)` and the last `floor(max_tokens * 0.4)` tokens of
the encoded sequence, decodes them, and inserts the single marker — which
states the original and target token counts — at the character-level midpoint
`len // 2` of the concatenated retained text.  (For `max_tokens ≤ 2` the
"last" slice is instead the entire sequence, as the counterexample shows.) -/
theorem truncate_head_tail_structure (tk : Tiktoken) (text : List Char) (m : Int)
    (model : String) (enc : Encoding) (tokens : List Nat) (d : List Char)
    (hget : tk.get_encoding "cl100k_base" = some enc)
    (henc : enc.encode text = some tokens)
    (hm : 3 ≤ m)
    (hover : m < (tokens.length : Int))
    (hdec : enc.decode (tokens.take (m.toNat * 6 / 10)
        ++ tokens.drop (tokens.length - m.toNat * 4 / 10)) = some d) :
    truncate_to_token_limit tk text m model
      = some (d.take (d.length / 2) ++ truncMarker tokens.length m
          ++ d.drop (d.length / 2)) := by
  obtain ⟨n, rfl⟩ : ∃ n : Nat, m = (n : Int) :=
    ⟨m.toNat, (Int.toNat_of_nonneg (by omega)).symm⟩
  have hn : 3 ≤ n := by exact_mod_cast hm
  have hcount := count_tokens_of_encode tk text model enc tokens hget henc
  have hover2 : ¬ ((count_tokens tk text model : Int) ≤ (n : Int)) := by
    rw [hcount]; omega
  have hc6 : ((n : Int) * 6).tdiv 10 = ((n * 6 / 10 : Nat) : Int) := by
    rw [show ((n : Int) * 6) = ((n * 6 : Nat) : Int) by push_cast; ring]
    exact tdiv_natCast (n * 6) 10
  have hc4 : ((n : Int) * 4).tdiv 10 = ((n * 4 / 10 : Nat) : Int) := by
    rw [show ((n : Int) * 4) = ((n * 4 : Nat) : Int) by push_cast; ring]
    exact tdiv_natCast (n * 4) 10
  have h1 : pySliceTo tokens (((n : Int) * 6).tdiv 10) = tokens.take (n * 6 / 10) := by
    rw [hc6, pySliceTo_natCast]
  have h2 : pySliceFrom tokens (-(((n : Int) * 4).tdiv 10))
      = tokens.drop (tokens.length - n * 4 / 10) := by
    rw [hc4, pySliceFrom_neg_natCast]
    omega
  have htoNat : ((n : Int)).toNat = n := Int.toNat_natCast n
  rw [htoNat] at hdec
  unfold truncate_to_token_limit
  rw [if_neg hover2]
  have hpath : truncate_token_path tk text (n : Int) model (count_tokens tk text model)
      = some (d.take (d.length / 2)
          ++ truncMarker (count_tokens tk text model) (n : Int)
          ++ d.drop (d.length / 2)) := by
    simp only [truncate_token_path, lookup_encoding_default, hget, henc, h1, h2, hdec]
  rw [hpath, hcount]

/-- Witness for the amended C3: `"abcdefghij"` (10 tokens) with budget 5
keeps the first 3 and last 2 tokens (`"abcij"`) and splits them around the
marker at character midpoint 2. -/
theorem truncate_head_tail_structure_witness :
    truncate_to_token_limit charTk "abcdefghij".data 5 "gpt-4o"
      = some ("abcij".data.take ("abcij".data.length / 2) ++ truncMarker 10 5
          ++ "abcij".data.drop ("abcij".data.length / 2)) :=
  truncate_head_tail_structure charTk "abcdefghij".data 5 "gpt-4o" charEncoding
    ("abcdefghij".data.map Char.toNat) "abcij".data rfl rfl (by decide) (by decide)
    (by decide)

end TokenManager

namespace TokenManager

/-- A concrete 100-line output (each line `"abcd"`), 499 characters. -/
def hundredLinesA : List Char :=
  List.intercalate ['\n'] (List.replicate 100 "abcd".data)

/-- A concrete 100-line output (each line `"wxyz"`), 499 characters. -/
def hundredLinesB : List Char :=
  List.intercalate ['\n'] (List.replicate 100 "wxyz".data)

set_option maxRecDepth 100000 in
/-- C5 counterexample: on a 100-line over-budget output whose line-level pass
fits the budget, the summary list has `40 + 1 + 40 = 81` entries and the
joined result splits into 83 newline-separated lines (the marker entry
carries two newlines of its own) — in neither sense 101 lines. -/
theorem summarize_100_lines_counterexample :
    summarize_task_output charTk hundredLinesA 480 "gpt-4o"
      = some (lineSummary hundredLinesA 480) ∧
    (splitOnNl (lineSummary hundredLinesA 480)).length ≠ 101 ∧
    ((splitOnNl hundredLinesA).take 40 ++ [summaryMarker 480]
      ++ (splitOnNl hundredLinesA).drop 60).length ≠ 101 := by decide

/-- C5 (amended): on a 100-line output over budget, with the line-level pass
alone sufficient, `summarize_task_output` keeps exactly lines `0..39` and
`60..99` with the single marker entry between them — a summary list of 81
entries (not 101 lines), joined by newlines. -/
theorem summarize_100_lines_structure (tk : Tiktoken) (output : List Char)
    (m : Int) (model : String)
    (hlen : (splitOnNl output).length = 100)
    (hover : m < (count_tokens tk output model : Int))
    (hfit : (count_tokens tk (lineSummary output m) model : Int) ≤ m) :
    summarize_task_output tk output m model
      = some (List.intercalate ['\n'] ((splitOnNl output).take 40
          ++ [summaryMarker m] ++ (splitOnNl output).drop 60)) ∧
    ((splitOnNl output).take 40 ++ [summaryMarker m]
      ++ (splitOnNl output).drop 60).length = 81 := by
  have hLS : lineSummary output m
      = List.intercalate ['\n'] ((splitOnNl output).take 40
          ++ [summaryMarker m] ++ (splitOnNl output).drop 60) := by
    unfold lineSummary
    rw [hlen]
    norm_num
    rw [show pySliceFrom (splitOnNl output) (-40 : Int)
          = (splitOnNl output).drop ((splitOnNl output).length - 40) from by
        simpa using pySliceFrom_neg_natCast (splitOnNl output) 40 (by norm_num),
      hlen]
  constructor
  · unfold summarize_task_output
    rw [if_neg (not_le.mpr hover), if_neg (not_lt.mpr hfit), hLS]
  · simp only [List.length_append, List.length_take, List.length_cons,
      List.length_nil, List.length_drop, hlen]
    omega

set_option maxRecDepth 100000 in
/-- Witness for the amended C5: the 100-line `"wxyz"` output (499 characters,
per-character tokenizer) with budget 480 triggers truncation, the line pass
fits (459 tokens), and the result keeps lines 0..39 and 60..99 around the
marker, 81 entries in all. -/
theorem summarize_100_lines_structure_witness :
    summarize_task_output charTk hundredLinesB 480 "gpt-4o"
      = some (List.intercalate ['\n'] ((splitOnNl hundredLinesB).take 40
          ++ [summaryMarker 480] ++ (splitOnNl hundredLinesB).drop 60)) ∧
    ((splitOnNl hundredLinesB).take 40 ++ [summaryMarker 480]
      ++ (splitOnNl hundredLinesB).drop 60).length = 81 :=
  summarize_100_lines_structure charTk hundredLinesB 480 "gpt-4o"
    (by decide) (by decide) (by decide)

end TokenManager

namespace TokenManager

/-- Under the per-character tokenizer, the result of an over-budget
truncation (budget at least 3) is the retained head/tail characters — at
most `max_tokens` of them — plus the inserted marker, so its length is
bounded by `max_tokens` plus the marker length. -/
lemma truncate_charTk_length_le (t : List Char) (n : Nat) (model : String)
    (hn : 3 ≤ n) (hover : n < t.length) (s : List Char)
    (hs : truncate_to_token_limit charTk t (n : Int) model = some s) :
    s.length ≤ n + (truncMarker t.length (n : Int)).length := by
  have hcnt : count_tokens charTk t model = t.length := count_charTk t model
  have hover2 : ¬ ((count_tokens charTk t model : Int) ≤ (n : Int)) := by
    rw [hcnt]
    exact_mod_cast not_le.mpr hover
  have hc6 : ((n : Int) * 6).tdiv 10 = ((n * 6 / 10 : Nat) : Int) := by
    rw [show ((n : Int) * 6) = ((n * 6 : Nat) : Int) by push_cast; ring]
    exact tdiv_natCast (n * 6) 10
  have hc4 : ((n : Int) * 4).tdiv 10 = ((n * 4 / 10 : Nat) : Int) := by
    rw [show ((n : Int) * 4) = ((n * 4 : Nat) : Int) by push_cast; ring]
    exact tdiv_natCast (n * 4) 10
  have h1 : pySliceTo (t.map Char.toNat) (((n : Int) * 6).tdiv 10)
      = (t.map Char.toNat).take (n * 6 / 10) := by
    rw [hc6, pySliceTo_natCast]
  have h2 : pySliceFrom (t.map Char.toNat) (-(((n : Int) * 4).tdiv 10))
      = (t.map Char.toNat).drop ((t.map Char.toNat).length - n * 4 / 10) := by
    rw [hc4, pySliceFrom_neg_natCast]
    omega
  have hpath : truncate_token_path charTk t (n : Int) model (count_tokens charTk t model)
      = some ((((t.map Char.toNat).take (n * 6 / 10)
            ++ (t.map Char.toNat).drop ((t.map Char.toNat).length - n * 4 / 10)).map
              Char.ofNat).take
            ((((t.map Char.toNat).take (n * 6 / 10)
            ++ (t.map Char.toNat).drop ((t.map Char.toNat).length - n * 4 / 10)).map
              Char.ofNat).length / 2)
          ++ truncMarker (count_tokens charTk t model) (n : Int)
          ++ (((t.map Char.toNat).take (n * 6 / 10)
            ++ (t.map Char.toNat).drop ((t.map Char.toNat).length - n * 4 / 10)).map
              Char.ofNat).drop
            ((((t.map Char.toNat).take (n * 6 / 10)
            ++ (t.map Char.toNat).drop ((t.map Char.toNat).length - n * 4 / 10)).map
              Char.ofNat).length / 2)) := by
    simp only [truncate_token_path, charTk, charEncoding, lookup_encoding_default, h1, h2]
  unfold truncate_to_token_limit at hs
  rw [if_neg hover2, hpath] at hs
  injection hs with hs2
  subst hs2
  simp only [List.length_append, List.length_take, List.length_drop, List.length_map,
    hcnt]
  omega

/-- C1 (amended): for budgets `max_tokens ≥ 3` and over-budget input under
the per-character tokenizer, `summarize_task_output` applies the line pass
and, when still over budget, `truncate_to_token_limit` as a second pass; the
final token count is bounded by `max_tokens` plus the length of the inserted
marker (it is NOT in general at or under `max_tokens`, because re-encoding
includes the marker). -/
theorem summarize_over_budget_marker_bound (output : List Char) (m : Int)
    (model : String) (s : List Char) (hm : 3 ≤ m)
    (hover : m < (count_tokens charTk output model : Int))
    (hs : summarize_task_output charTk output m model = some s) :
    (count_tokens charTk s model : Int)
      ≤ m + ((truncMarker (lineSummary output m).length m).length : Int) := by
  obtain ⟨n, rfl⟩ : ∃ n : Nat, m = (n : Int) :=
    ⟨m.toNat, (Int.toNat_of_nonneg (by omega)).symm⟩
  have hn : 3 ≤ n := by exact_mod_cast hm
  rw [count_charTk]
  unfold summarize_task_output at hs
  rw [if_neg (not_le.mpr hover)] at hs
  by_cases hc : (count_tokens charTk (lineSummary output (n : Int)) model : Int) > (n : Int)
  · rw [if_pos hc] at hs
    have hlen : n < (lineSummary output (n : Int)).length := by
      rw [count_charTk] at hc
      exact_mod_cast hc
    have hb := truncate_charTk_length_le (lineSummary output (n : Int)) n model hn hlen s hs
    exact_mod_cast hb
  · rw [if_neg hc] at hs
    injection hs with hs2
    subst hs2
    have hfit : (lineSummary output (n : Int)).length ≤ n := by
      have hc' := not_lt.mp hc
      rw [count_charTk] at hc'
      exact_mod_cast hc'
    omega

/-- C1 counterexample: per-character tokenizer, single-line input
`"abcdefghij"` (10 tokens), budget 3.  The second (token-level) pass is
taken and succeeds — the character fallback is not involved (third
conjunct) — yet the final result re-encodes to 55 tokens, far above the
budget of 3, because the inserted marker is part of the output. -/
theorem summarize_exceeds_budget_counterexample :
    (summarize_task_output charTk "abcdefghij".data 3 "gpt-4o").isSome = true ∧
    3 < ((summarize_task_output charTk "abcdefghij".data 3 "gpt-4o").map
          (fun s => count_tokens charTk s "gpt-4o")).getD 0 ∧
    (truncate_token_path charTk (lineSummary "abcdefghij".data 3) 3 "gpt-4o"
        (count_tokens charTk (lineSummary "abcdefghij".data 3) "gpt-4o")).isSome
      = true := by decide

/-- Witness for the amended C1: at input `"abcdefghij"`, budget 3, the
returned text is `"\n" ++ marker ++ "j"` and its 55 tokens are within
budget-plus-marker-length. -/
theorem summarize_over_budget_marker_bound_witness :
    (count_tokens charTk ("\n".data ++ truncMarker 68 3 ++ "j".data) "gpt-4o" : Int)
      ≤ 3 + ((truncMarker (lineSummary "abcdefghij".data 3).length 3).length : Int) :=
  summarize_over_budget_marker_bound "abcdefghij".data 3 "gpt-4o"
    ("\n".data ++ truncMarker 68 3 ++ "j".data) (by decide) (by decide) (by decide)

end TokenManager
